import Mathlib

/-!
Shallow embedding of the BMC-side SSIF (SMBus System Interface) driver:
the `ssif_msg` message type, the `ssif_bmc` transaction context, the
I2C slave byte-event state machine (`ssif_bmc_cb` with its helpers
`event_request_read`, `event_process_read`, `set_response_buffer`,
`handle_request`, `complete_response`), and the request/response exchange
point (`receive_ssif_bmc_request`, `send_ssif_bmc_response`).

Machine bytes (`u8`) are modelled as `Nat` with explicit `% 256` where the
source stores into a `u8` after wider arithmetic; `size_t` cursors are plain
`Nat`.  The packed `struct ssif_msg` (255 bytes: len, netfn_lun, cmd, 252
payload bytes) is flattened through `msgByte` / `msgSetByte`, mirroring the
source's `buf = (u8 *)&msg` aliasing.  The I2C slave-listening capability is
a `slave_enabled` flag and each `wake_up_all` broadcast increments a
`wake_count`, so that the hardware/wait-queue side effects are observable.
-/

namespace SsifBmcSpec

def MSG_PAYLOAD_LEN_MAX : Nat := 252

/-- A standard SMBus transaction is limited to 32 data bytes. -/
def MAX_PAYLOAD_PER_TRANSACTION : Nat := 32

def MAX_IPMI_DATA_PER_START_TRANSACTION : Nat := 30

def MAX_IPMI_DATA_PER_MIDDLE_TRANSACTION : Nat := 31

def SSIF_IPMI_REQUEST : Nat := 2

def SSIF_IPMI_RESPONSE : Nat := 3

def SSIF_IPMI_MULTI_PART_RESPONSE_MIDDLE : Nat := 9

def EAGAIN : Int := 11

/-- sizeof(struct ssif_msg) = 1 + 1 + 1 + 252 (packed). -/
def SSIF_MSG_SIZE : Nat := 255

/-- struct ssif_msg: len, netfn_lun, cmd, payload[252]. -/
structure SsifMsg where
  len : Nat
  netfn_lun : Nat
  cmd : Nat
  payload : List Nat
  deriving DecidableEq, Repr

/-- ssif_msg_len: total on-wire size = len + 1. -/
def ssif_msg_len (m : SsifMsg) : Nat := m.len + 1

/-- Byte `i` of the flat 255-byte view of a message (`buf = (u8 *)&msg`). -/
def msgByte (m : SsifMsg) (i : Nat) : Nat :=
  if i = 0 then m.len
  else if i = 1 then m.netfn_lun
  else if i = 2 then m.cmd
  else m.payload.getD (i - 3) 0

/-- Store byte `v` at offset `i` of the flat view of a message. -/
def msgSetByte (m : SsifMsg) (i v : Nat) : SsifMsg :=
  if i = 0 then { m with len := v }
  else if i = 1 then { m with netfn_lun := v }
  else if i = 2 then { m with cmd := v }
  else { m with payload := m.payload.set (i - 3) v }

/-- An all-zero message, as produced by `memset(&msg, 0, sizeof(msg))`. -/
def zeroMsg : SsifMsg :=
  { len := 0, netfn_lun := 0, cmd := 0, payload := List.replicate 252 0 }

/-- struct ssif_bmc: the transaction context.  `slave_enabled` models the
aspeed I2C slave-listening capability; `wake_count` counts `wake_up_all`
broadcasts on the wait queue. -/
structure SsifBmc where
  smbus_cmd : Nat
  request : SsifMsg
  request_available : Bool
  response : SsifMsg
  response_in_progress : Bool
  response_buffer : List Nat
  is_multi_part : Bool
  middle_start_response : Bool
  num_bytes_processed : Nat
  remain_data_len : Nat
  block_num : Nat
  msg_idx : Nat
  slave_enabled : Bool
  wake_count : Nat
  deriving DecidableEq, Repr

/-- The five Linux I2C slave events dispatched by `ssif_bmc_cb`. -/
inductive I2cEvent where
  | readRequested
  | writeRequested
  | readProcessed
  | writeReceived
  | stop
  deriving DecidableEq, Repr

/-- `memcpy` from `p[src .. src+n-1]` (reads past the end of the list give
0, the value of untouched zero-initialised memory). -/
def copyPayload (p : List Nat) (src n : Nat) : List Nat :=
  (List.range n).map (fun i => p.getD (src + i) 0)

/-- handle_request: disable the slave capability, publish the request,
zero the response of the previous transfer, wake all waiters. -/
def handle_request (s : SsifBmc) : SsifBmc :=
  { s with slave_enabled := false,
           request_available := true,
           response := zeroMsg,
           wake_count := s.wake_count + 1 }

/-- complete_response: invalidate the response, clear the in-progress flag
and multi-part cursors, zero the chunk buffer, wake all waiters.  The
source does not touch `block_num` here. -/
def complete_response (s : SsifBmc) : SsifBmc :=
  { s with response := { s.response with len := 0 },
           response_in_progress := false,
           num_bytes_processed := 0,
           remain_data_len := 0,
           response_buffer := List.replicate 32 0,
           wake_count := s.wake_count + 1 }

/-- set_response_buffer: fill `response_buffer` with the next chunk.
For `SSIF_IPMI_RESPONSE` (Start): two flag bytes 0x00 0x01, netfn_lun, cmd
and payload[0..27].  For the middle/end command: the block number followed
by `min(remain_data_len, 31)` payload bytes starting at
`payload + 1 + num_bytes_processed`; buffer bytes past the copy keep their
previous (stale) contents, exactly as the partial `memcpy` in the source
leaves them.  Any other command is a logged error with no copy
(`response_data_len` stays 0).  `num_bytes_processed` is a `u8`. -/
def set_response_buffer (s : SsifBmc) : SsifBmc :=
  if s.smbus_cmd = SSIF_IPMI_RESPONSE then
    { s with
      response_buffer :=
        [0, 1, s.response.netfn_lun, s.response.cmd, s.response.payload.getD 0 0] ++
          copyPayload s.response.payload 1 (MAX_PAYLOAD_PER_TRANSACTION - 5),
      num_bytes_processed :=
        (s.num_bytes_processed + (MAX_PAYLOAD_PER_TRANSACTION - 5)) % 256 }
  else if s.smbus_cmd = SSIF_IPMI_MULTI_PART_RESPONSE_MIDDLE then
    { s with
      response_buffer :=
        s.block_num ::
          copyPayload s.response.payload (1 + s.num_bytes_processed)
            (min s.remain_data_len MAX_IPMI_DATA_PER_MIDDLE_TRANSACTION) ++
          s.response_buffer.drop
            (1 + min s.remain_data_len MAX_IPMI_DATA_PER_MIDDLE_TRANSACTION),
      num_bytes_processed :=
        (s.num_bytes_processed +
          min s.remain_data_len MAX_IPMI_DATA_PER_MIDDLE_TRANSACTION) % 256 }
  else
    s

/-- event_request_read: compute the first byte of a read transaction.
Single-part: the raw first byte of the response, with the zero-length
workaround (a literal 0 length byte is replaced by 1).  Multi-part:
dispatch on the SMBus command; the Start branch announces 32 bytes and
initialises the cursors, the middle branch either announces the End chunk
(`remain + 1`, block number 0xFF) or a full Middle chunk (32 bytes,
block number incremented or reset to 0 for the first middle), then the
chunk buffer is prepared.  `remain_data_len` and `block_num` are `u8`.
In the default branch the source only logs; `*val` keeps its incoming
value. -/
def event_request_read (s : SsifBmc) (val : Nat) : SsifBmc × Nat :=
  if s.is_multi_part = false then
    (s, if msgByte s.response s.msg_idx = 0 then 1 else msgByte s.response s.msg_idx)
  else if s.smbus_cmd = SSIF_IPMI_RESPONSE then
    (set_response_buffer
      { s with
        remain_data_len :=
          (256 + s.response.len - MAX_IPMI_DATA_PER_START_TRANSACTION) % 256,
        block_num := 0,
        middle_start_response :=
          if MAX_IPMI_DATA_PER_MIDDLE_TRANSACTION <
              (256 + s.response.len - MAX_IPMI_DATA_PER_START_TRANSACTION) % 256
          then true else s.middle_start_response },
     MAX_PAYLOAD_PER_TRANSACTION)
  else if s.smbus_cmd = SSIF_IPMI_MULTI_PART_RESPONSE_MIDDLE then
    if s.remain_data_len ≤ MAX_IPMI_DATA_PER_MIDDLE_TRANSACTION then
      (set_response_buffer { s with block_num := 0xFF }, s.remain_data_len + 1)
    else
      (set_response_buffer
        { s with
          block_num :=
            if s.middle_start_response = false then (s.block_num + 1) % 256 else 0,
          middle_start_response := false,
          remain_data_len :=
            (256 + s.remain_data_len - MAX_IPMI_DATA_PER_MIDDLE_TRANSACTION) % 256 },
       MAX_PAYLOAD_PER_TRANSACTION)
  else
    (set_response_buffer s, val)

/-- event_process_read: supply the next byte after the previous one was
accepted.  Single-part: pre-increment the cursor and read the flat
response byte while the response is valid, else supply 0; complete the
response once the (possibly updated) cursor satisfies
`msg_idx + 1 >= ssif_msg_len(response)`.  Multi-part: post-increment the
cursor and read from the chunk buffer; the default command branch leaves
`*val` and the cursor alone; completion happens once the block number is
the 0xFF sentinel and the cursor exceeds `remain_data_len`. -/
def event_process_read (s : SsifBmc) (val : Nat) : SsifBmc × Nat :=
  if s.is_multi_part = false then
    if s.response.len ≠ 0 ∧ s.msg_idx < ssif_msg_len s.response then
      if s.msg_idx + 1 + 1 ≥ ssif_msg_len s.response then
        (complete_response { s with msg_idx := s.msg_idx + 1 },
         msgByte s.response (s.msg_idx + 1))
      else
        ({ s with msg_idx := s.msg_idx + 1 }, msgByte s.response (s.msg_idx + 1))
    else
      if s.msg_idx + 1 ≥ ssif_msg_len s.response then
        (complete_response s, 0)
      else
        (s, 0)
  else
    if s.smbus_cmd = SSIF_IPMI_RESPONSE ∨
        s.smbus_cmd = SSIF_IPMI_MULTI_PART_RESPONSE_MIDDLE then
      if s.block_num = 0xFF ∧ s.msg_idx + 1 > s.remain_data_len then
        (complete_response { s with msg_idx := s.msg_idx + 1 },
         s.response_buffer.getD s.msg_idx 0)
      else
        ({ s with msg_idx := s.msg_idx + 1 }, s.response_buffer.getD s.msg_idx 0)
    else
      if s.block_num = 0xFF ∧ s.msg_idx > s.remain_data_len then
        (complete_response s, val)
      else
        (s, val)

/-- ssif_bmc_cb: the I2C slave event callback.  Returns the updated
context and the value of `*val` on return (for read events the byte
supplied to the master; for other events the unchanged incoming byte). -/
def ssif_bmc_cb (s : SsifBmc) (event : I2cEvent) (val : Nat) : SsifBmc × Nat :=
  match event with
  | I2cEvent.readRequested =>
      event_request_read { s with msg_idx := 0 } val
  | I2cEvent.writeRequested =>
      ({ s with msg_idx := 0 }, val)
  | I2cEvent.readProcessed =>
      event_process_read s val
  | I2cEvent.writeReceived =>
      if s.msg_idx = 0 then
        ({ s with smbus_cmd := val, msg_idx := 1 }, val)
      else if SSIF_MSG_SIZE ≤ s.msg_idx then
        (s, val)
      else
        if ssif_msg_len (msgSetByte s.request (s.msg_idx - 1) val) ≤ s.msg_idx then
          (handle_request
            { s with request := msgSetByte s.request (s.msg_idx - 1) val,
                     msg_idx := s.msg_idx + 1 },
           val)
        else
          ({ s with request := msgSetByte s.request (s.msg_idx - 1) val,
                    msg_idx := s.msg_idx + 1 },
           val)
  | I2cEvent.stop =>
      ({ s with msg_idx := 0 }, val)

/-- receive_ssif_bmc_request, non-blocking path: fail with `-EAGAIN` when
no request is available, otherwise copy the request out and clear the
flag. -/
def receive_ssif_bmc_request (s : SsifBmc) : Except Int SsifMsg × SsifBmc :=
  if s.request_available = false then
    (Except.error (-EAGAIN), s)
  else
    (Except.ok s.request, { s with request_available := false })

/-- send_ssif_bmc_response, non-blocking path: fail with `-EAGAIN` while a
response is still in progress, otherwise store the response, raise the
in-progress flag and classify single vs multi-part by
`ssif_msg_len > 33`. -/
def send_ssif_bmc_response (s : SsifBmc) (response : SsifMsg) :
    Except Int Unit × SsifBmc :=
  if s.response_in_progress = true then
    (Except.error (-EAGAIN), s)
  else
    (Except.ok (),
     { s with
       response := response,
       response_in_progress := true,
       is_multi_part :=
         if MAX_PAYLOAD_PER_TRANSACTION + 1 < ssif_msg_len response
         then true else false })

/-- The freshly probed context: `devm_kzalloc` zeroes every field, probe
clears both mailbox flags, and registering the slave leaves listening
enabled. -/
def initState : SsifBmc :=
  { smbus_cmd := 0,
    request := zeroMsg,
    request_available := false,
    response := zeroMsg,
    response_in_progress := false,
    response_buffer := List.replicate 32 0,
    is_multi_part := false,
    middle_start_response := false,
    num_bytes_processed := 0,
    remain_data_len := 0,
    block_num := 0,
    msg_idx := 0,
    slave_enabled := true,
    wake_count := 0 }

/-- Run `n` consecutive `I2C_SLAVE_READ_PROCESSED` events, collecting the
bytes supplied to the master. -/
def runReads : SsifBmc → Nat → SsifBmc × List Nat
  | s, 0 => (s, [])
  | s, n + 1 =>
      let r1 := ssif_bmc_cb s I2cEvent.readProcessed 0
      let r2 := runReads r1.1 n
      (r2.1, r1.2 :: r2.2)

/-- One read transaction: `ReadRequested` supplies the first byte, then
`n` `ReadProcessed` events drain the rest. -/
def runSingleRead (s : SsifBmc) (n : Nat) : SsifBmc × List Nat :=
  ((runReads (ssif_bmc_cb s I2cEvent.readRequested 0).1 n).1,
   (ssif_bmc_cb s I2cEvent.readRequested 0).2 ::
     (runReads (ssif_bmc_cb s I2cEvent.readRequested 0).1 n).2)

/-- One SMBus block-read transaction issued by the master: write the SMBus
command byte `c`, then a repeated-start read of the announced length byte
followed by that many data bytes, then stop.  Returns the on-wire bytes
`length :: data`. -/
def readChunk (s : SsifBmc) (c : Nat) : SsifBmc × List Nat :=
  let s1 := (ssif_bmc_cb s I2cEvent.writeRequested 0).1
  let s2 := (ssif_bmc_cb s1 I2cEvent.writeReceived c).1
  let r3 := ssif_bmc_cb s2 I2cEvent.readRequested 0
  let r4 := runReads r3.1 r3.2
  let s5 := (ssif_bmc_cb r4.1 I2cEvent.stop 0).1
  (s5, r3.2 :: r4.2)

/-- Repeat middle/end block reads (SMBus command 0x09) while a response is
still in progress; `fuel` bounds the recursion. -/
def runMiddleReads : Nat → SsifBmc → SsifBmc × List (List Nat)
  | 0, s => (s, [])
  | fuel + 1, s =>
      if s.response_in_progress = true then
        let r1 := readChunk s SSIF_IPMI_MULTI_PART_RESPONSE_MIDDLE
        let r2 := runMiddleReads fuel r1.1
        (r2.1, r1.2 :: r2.2)
      else
        (s, [])

/-- The full multi-part read sequence: a Start block read (SMBus command
0x03), then middle/end block reads (0x09) until the response completes. -/
def runMultipart (s : SsifBmc) : SsifBmc × List (List Nat) :=
  let r1 := readChunk s SSIF_IPMI_RESPONSE
  let r2 := runMiddleReads 16 r1.1
  (r2.1, r1.2 :: r2.2)

/-- The IPMI data bytes carried by a chunk sequence: the Start chunk minus
its length byte and the two 0x00 0x01 flag bytes, each later chunk minus
its length byte and block-number byte. -/
def chunkData (chunks : List (List Nat)) : List Nat :=
  match chunks with
  | [] => []
  | first :: rest => first.drop 3 ++ (rest.map (fun c => c.drop 2)).flatten

/-- Submit a sequence of `WriteReceived` bytes. -/
def applyWrites (s : SsifBmc) (bytes : List Nat) : SsifBmc :=
  bytes.foldl (fun t b => (ssif_bmc_cb t I2cEvent.writeReceived b).1) s

/-- A full master write transaction: write-requested, the bytes, stop. -/
def requestScenario (bytes : List Nat) : SsifBmc :=
  (ssif_bmc_cb
    (applyWrites ((ssif_bmc_cb initState I2cEvent.writeRequested 0).1) bytes)
    I2cEvent.stop 0).1

/-- The condition under which a `WriteReceived` event completes request
assembly and calls `handle_request`: past the SMBus command byte, within
the struct, and the written count `msg_idx` has reached the request's
on-wire length (evaluated on the request after the byte is stored). -/
def completes_request (s : SsifBmc) (e : I2cEvent) (v : Nat) : Bool :=
  match e with
  | I2cEvent.writeReceived =>
      decide (1 ≤ s.msg_idx) && decide (s.msg_idx < SSIF_MSG_SIZE) &&
        decide (ssif_msg_len (msgSetByte s.request (s.msg_idx - 1) v) ≤ s.msg_idx)
  | _ => false

/-- A pending multi-part response with `wireLen = 71` (len 70): netfn_lun
0xAB, cmd 0xCD, payload bytes `i + 1`. -/
def msg70 : SsifMsg :=
  { len := 70, netfn_lun := 0xAB, cmd := 0xCD,
    payload := (List.range 68).map (fun i => i + 1) }

/-- The context right after the consumer submits `msg70`. -/
def s70 : SsifBmc := (send_ssif_bmc_response initState msg70).2

/-- The context after the master writes exactly the request bytes
`[0x02, 0x03, 0x20, 0x01]` of the end-to-end scenario. -/
def sC3req : SsifBmc := requestScenario [2, 3, 0x20, 1]

/-- The end-to-end scenario request with the one payload byte its declared
length 3 requires. -/
def sC3ok : SsifBmc := requestScenario [2, 3, 0x20, 1, 0]

/-- The consumer collects the completed request. -/
def recC3 : Except Int SsifMsg × SsifBmc := receive_ssif_bmc_request sC3ok

/-- A 40-byte (wireLen) response: len 39, payload bytes `i + 1`. -/
def msg40 : SsifMsg :=
  { len := 39, netfn_lun := 0xAB, cmd := 0xCD,
    payload := (List.range 37).map (fun i => i + 1) }

/-- The context after the consumer submits the 40-byte response. -/
def sC3resp : SsifBmc := (send_ssif_bmc_response recC3.2 msg40).2

/-- The Start block read of the end-to-end scenario. -/
def startChunk : SsifBmc × List Nat := readChunk sC3resp SSIF_IPMI_RESPONSE

/-- The following middle/end block read of the end-to-end scenario. -/
def endChunk : SsifBmc × List Nat :=
  readChunk startChunk.1 SSIF_IPMI_MULTI_PART_RESPONSE_MIDDLE

/-- A context in the final multi-part completion position with the 0xFF
sentinel block number: the next `ReadProcessed` runs `complete_response`. -/
def sC5 : SsifBmc :=
  { initState with
    is_multi_part := true,
    smbus_cmd := SSIF_IPMI_MULTI_PART_RESPONSE_MIDDLE,
    block_num := 0xFF,
    remain_data_len := 0,
    msg_idx := 1,
    response_in_progress := true }

/-- A context holding a completed request, for the mailbox witness. -/
def sC7 : SsifBmc := { initState with request_available := true }

/-- A small single-part response message for the round-trip witness. -/
def m2w : SsifMsg := { len := 2, netfn_lun := 7, cmd := 9, payload := [] }

/-- A context holding `m2w` as the pending single-part response. -/
def s2w : SsifBmc :=
  { initState with response := m2w, response_in_progress := true }

/-- A context mid request assembly: three message bytes written, the next
`WriteReceived` byte lands at payload[0] and completes the request. -/
def sC4 : SsifBmc :=
  { initState with
    msg_idx := 4,
    smbus_cmd := SSIF_IPMI_REQUEST,
    request := { len := 3, netfn_lun := 0x20, cmd := 1,
                 payload := List.replicate 252 0 } }

/-- A context whose write cursor sits past the end of the message struct. -/
def sC9 : SsifBmc := { initState with msg_idx := 300 }

/-- A context with a response still in progress. -/
def sC6 : SsifBmc := { initState with response_in_progress := true }

end SsifBmcSpec

namespace SsifBmcSpec

lemma set_response_buffer_request_available (s : SsifBmc) :
    (set_response_buffer s).request_available = s.request_available := by
  unfold set_response_buffer
  split_ifs <;> rfl

lemma complete_response_request_available (s : SsifBmc) :
    (complete_response s).request_available = s.request_available := rfl

lemma event_request_read_request_available (s : SsifBmc) (v : Nat) :
    ((event_request_read s v).1).request_available = s.request_available := by
  unfold event_request_read
  split_ifs <;> simp [set_response_buffer_request_available]

lemma event_process_read_request_available (s : SsifBmc) (v : Nat) :
    ((event_process_read s v).1).request_available = s.request_available := by
  unfold event_process_read
  split_ifs <;> simp [complete_response_request_available]

/-- Any byte event that does not complete request assembly leaves
`request_available` unchanged. -/
lemma cb_preserves_request_available (s : SsifBmc) (e : I2cEvent) (v : Nat)
    (h : completes_request s e v = false) :
    ((ssif_bmc_cb s e v).1).request_available = s.request_available := by
  cases e with
  | readRequested => simp [ssif_bmc_cb, event_request_read_request_available]
  | writeRequested => simp [ssif_bmc_cb]
  | readProcessed => simp [ssif_bmc_cb, event_process_read_request_available]
  | stop => simp [ssif_bmc_cb]
  | writeReceived =>
      simp only [completes_request, Bool.and_eq_false_iff, decide_eq_false_iff_not] at h
      by_cases h0 : s.msg_idx = 0
      · simp [ssif_bmc_cb, h0]
      · by_cases hge : SSIF_MSG_SIZE ≤ s.msg_idx
        · simp [ssif_bmc_cb, h0, hge]
        · have h1 : 1 ≤ s.msg_idx := Nat.one_le_iff_ne_zero.mpr h0
          have hlt : s.msg_idx < SSIF_MSG_SIZE := Nat.lt_of_not_le hge
          have hnc : ¬ ssif_msg_len (msgSetByte s.request (s.msg_idx - 1) v) ≤
              s.msg_idx := by
            rcases h with h | h
            · rcases h with h | h
              · exact absurd h1 h
              · exact absurd hlt h
            · exact h
          simp [ssif_bmc_cb, h0, hge, hnc]

lemma runReads_add (a b : Nat) : ∀ s : SsifBmc,
    runReads s (a + b) =
      ((runReads (runReads s a).1 b).1,
       (runReads s a).2 ++ (runReads (runReads s a).1 b).2) := by
  induction a with
  | zero => intro s; simp [runReads]
  | succ n ih =>
      intro s
      rw [Nat.succ_add]
      simp only [runReads, ih]
      simp

/-- A non-final `ReadProcessed` step of a single-part drain: cursor
advances, the flat response byte at the new cursor is supplied, nothing
else changes. -/
lemma single_step (s : SsifBmc) (h1 : s.is_multi_part = false)
    (h2 : s.response.len ≠ 0) (h3 : s.msg_idx + 1 < s.response.len) :
    ssif_bmc_cb s I2cEvent.readProcessed 0 =
      ({ s with msg_idx := s.msg_idx + 1 }, msgByte s.response (s.msg_idx + 1)) := by
  have hc1 : s.response.len ≠ 0 ∧ s.msg_idx < ssif_msg_len s.response := by
    refine ⟨h2, ?_⟩
    simp only [ssif_msg_len]
    omega
  have hc2 : ¬ s.msg_idx + 1 + 1 ≥ ssif_msg_len s.response := by
    simp only [ssif_msg_len]
    omega
  simp [ssif_bmc_cb, event_process_read, h1, hc1, hc2]

/-- Running `k` non-final single-part `ReadProcessed` steps emits the flat
response bytes at cursor positions `msg_idx + 1 .. msg_idx + k`. -/
lemma runReads_steady : ∀ (k : Nat) (s : SsifBmc),
    s.is_multi_part = false → s.response.len ≠ 0 →
    s.msg_idx + k < s.response.len →
    runReads s k =
      ({ s with msg_idx := s.msg_idx + k },
       (List.range k).map (fun i => msgByte s.response (s.msg_idx + 1 + i))) := by
  intro k
  induction k with
  | zero =>
      intro s h1 h2 h3
      simp [runReads]
  | succ n ih =>
      intro s h1 h2 h3
      have hstep := single_step s h1 h2 (by omega)
      have hrec := ih { s with msg_idx := s.msg_idx + 1 } h1 h2 (by simp; omega)
      simp only [runReads, hstep, hrec]
      simp [Prod.mk.injEq, List.range_succ_eq_map, List.map_map, SsifBmc.mk.injEq]
      refine ⟨by omega, ?_⟩
      intro a ha
      congr 1
      omega

/-- The final `ReadProcessed` step of a single-part drain supplies the
last on-wire byte and runs `complete_response`. -/
lemma final_step (s : SsifBmc) (h1 : s.is_multi_part = false)
    (h2 : s.response.len ≠ 0) (h3 : s.msg_idx + 1 = s.response.len) :
    ssif_bmc_cb s I2cEvent.readProcessed 0 =
      (complete_response { s with msg_idx := s.msg_idx + 1 },
       msgByte s.response (s.msg_idx + 1)) := by
  have hc1 : s.response.len ≠ 0 ∧ s.msg_idx < ssif_msg_len s.response := by
    refine ⟨h2, ?_⟩
    simp only [ssif_msg_len]
    omega
  have hc2 : s.msg_idx + 1 + 1 ≥ ssif_msg_len s.response := by
    simp only [ssif_msg_len]
    omega
  simp [ssif_bmc_cb, event_process_read, h1, hc1, hc2]

/-- The wire bytes of a message split as length byte, middle bytes, last
byte. -/
lemma range_map_split (r : SsifMsg) (k : Nat) :
    (List.range (k + 2)).map (fun i => msgByte r i) =
      r.len :: ((List.range k).map (fun i => msgByte r (i + 1)) ++ [msgByte r (k + 1)]) := by
  rw [show k + 2 = (k + 1) + 1 from rfl, List.range_succ, List.range_succ_eq_map]
  simp [List.map_map, Function.comp, Nat.succ_eq_add_one, msgByte]

/-- `ReadRequested` on a held nonzero-length single-part response resets
the cursor and supplies the length byte. -/
lemma first_byte (s : SsifBmc) (h1 : s.is_multi_part = false)
    (h2 : s.response.len ≠ 0) :
    ssif_bmc_cb s I2cEvent.readRequested 0 =
      ({ s with msg_idx := 0 }, s.response.len) := by
  simp [ssif_bmc_cb, event_request_read, h1, msgByte, h2]

/-- Claim C2: for a pending single-part response with length field in
[2, 33], the sequence `ReadRequested` then `wireLen - 1 = len`
`ReadProcessed` events emits exactly the `wireLen` on-wire bytes
`[length][netfn_lun][command][payload...]`, and `response_in_progress` is
false after the last `ReadProcessed`. -/
theorem C2_single_part_round_trip (m : SsifMsg) (s : SsifBmc) (hlo : 2 ≤ m.len)
    (hhi : m.len ≤ 33) (hresp : s.response = m) (hmp : s.is_multi_part = false)
    (hip : s.response_in_progress = true) :
    (runSingleRead s m.len).2 =
      (List.range (m.len + 1)).map (fun i => msgByte m i) ∧
    ((runSingleRead s m.len).1).response_in_progress = false := by
  subst hresp
  obtain ⟨n, hn⟩ : ∃ n, s.response.len = n + 2 := ⟨s.response.len - 2, by omega⟩
  have hz : s.response.len ≠ 0 := by omega
  have h0 := first_byte s hmp hz
  have hsteady := runReads_steady (n + 1) { s with msg_idx := 0 }
    (by simpa using hmp) (by simpa using hz) (by simp; omega)
  have hone : runReads { s with msg_idx := n + 1 } 1 =
      (complete_response { s with msg_idx := n + 1 + 1 },
       [msgByte s.response (n + 1 + 1)]) := by
    simp only [runReads]
    rw [final_step { s with msg_idx := n + 1 } (by simpa using hmp)
      (by simpa using hz) (by simp; omega)]
  simp only [runSingleRead, h0]
  rw [hn]
  rw [show (n + 2) = (n + 1) + 1 from rfl]
  rw [runReads_add (n + 1) 1]
  rw [hsteady]
  dsimp only
  simp only [Nat.zero_add]
  rw [hone]
  dsimp only
  refine ⟨?_, by simp [complete_response]⟩
  rw [show n + 1 + 1 + 1 = (n + 1) + 2 from rfl]
  rw [range_map_split s.response (n + 1)]
  congr 1
  · omega
  congr 1
  refine List.map_congr_left ?_
  intro a ha
  congr 1
  omega

/-- Witness for C2 at the concrete length-2 message `m2w` held in `s2w`. -/
theorem C2_single_part_round_trip_witness :
    (2 ≤ m2w.len ∧ m2w.len ≤ 33 ∧ s2w.response = m2w ∧
      s2w.is_multi_part = false ∧ s2w.response_in_progress = true) ∧
    ((runSingleRead s2w m2w.len).2 =
       (List.range (m2w.len + 1)).map (fun i => msgByte m2w i) ∧
     ((runSingleRead s2w m2w.len).1).response_in_progress = false) :=
  ⟨⟨by decide, by decide, rfl, rfl, rfl⟩,
   C2_single_part_round_trip m2w s2w (by decide) (by decide) rfl rfl rfl⟩

/-- Claim C1 (code bug): driving the byte-event machine through the full
multi-part read sequence for the pending response `msg70`
(`wireLen = 71`, which the claim covers) does NOT reconstruct
`netfn_lun, cmd, payload[0..67]` from the concatenated chunk data bytes:
the middle branch of `event_request_read` decrements `remain_data_len`
before `set_response_buffer` computes the copy length, so the final
partial middle chunk announces 32 bytes but copies only 9, emits 22 stale
bytes, and payload bytes 46..67 are never sent. -/
theorem C1_multipart_concat_code_bug :
    chunkData (runMultipart s70).2 ≠ [0xAB, 0xCD] ++ msg70.payload.take 68 := by
  decide

/-- Counterexample to claim C3 as stated: after the master writes exactly
`[0x02, 0x03, 0x20, 0x01]`, only three message bytes follow the SMBus
command byte while the declared length 3 makes `wireLen = 4`, so request
assembly never completes and `receiveRequest` fails with `-EAGAIN`
instead of returning `{length:3, netfn_lun:0x20, cmd:0x01}`. -/
theorem C3_scenario_counterexample :
    sC3req.request_available = false ∧
    (receive_ssif_bmc_request sC3req).1 = Except.error (-EAGAIN) := by
  exact ⟨rfl, rfl⟩

/-- Claim C3 (amended): with the one payload byte the declared length 3
requires appended to the write sequence, `receiveRequest` returns
`{length:3, netfn_lun:0x20, cmd:0x01}`; after `sendResponse` with a
40-byte message the read sequence emits a 32-byte Start chunk followed by
exactly one End chunk whose announced length is 10 (the 9 remaining data
bytes plus the block-number byte, not 9 as claimed), with block number
0xFF. -/
theorem C3_scenario_amended :
    recC3.1 = Except.ok { len := 3, netfn_lun := 0x20, cmd := 1,
                          payload := List.replicate 252 0 } ∧
    startChunk.2.getD 0 0 = 32 ∧
    startChunk.2.length = 33 ∧
    endChunk.2.getD 0 0 = 10 ∧
    endChunk.2.getD 1 0 = 0xFF ∧
    endChunk.1.response_in_progress = false ∧
    runMiddleReads 16 startChunk.1 = (endChunk.1, [endChunk.2]) := by
  exact ⟨rfl, rfl, rfl, rfl, rfl, rfl, rfl⟩

/-- Claim C4: when the count of message bytes written (`msg_idx - 1` after
the SMBus command byte, i.e. `msg_idx` reaching the on-wire length of the
just-updated request) reaches `wireLen(pendingRequest)`, the `WriteReceived`
handler completes the request: it disables the slave-listening capability,
sets `request_available`, zeroes the entire pending response, and
broadcasts a wake on the wait queue. -/
theorem C4_request_completion (s : SsifBmc) (v : Nat)
    (h1 : 1 ≤ s.msg_idx) (h2 : s.msg_idx < SSIF_MSG_SIZE)
    (h3 : ssif_msg_len (msgSetByte s.request (s.msg_idx - 1) v) ≤ s.msg_idx) :
    ((ssif_bmc_cb s I2cEvent.writeReceived v).1).slave_enabled = false ∧
    ((ssif_bmc_cb s I2cEvent.writeReceived v).1).request_available = true ∧
    ((ssif_bmc_cb s I2cEvent.writeReceived v).1).response = zeroMsg ∧
    ((ssif_bmc_cb s I2cEvent.writeReceived v).1).wake_count = s.wake_count + 1 := by
  have h0 : ¬ s.msg_idx = 0 := by omega
  have hge : ¬ SSIF_MSG_SIZE ≤ s.msg_idx := Nat.not_le.mpr h2
  simp [ssif_bmc_cb, h0, hge, h3, handle_request]

/-- Witness for C4: in state `sC4` (three request bytes of a length-3
request already written) the fourth byte completes the request. -/
theorem C4_request_completion_witness :
    (1 ≤ sC4.msg_idx ∧ sC4.msg_idx < SSIF_MSG_SIZE ∧
      ssif_msg_len (msgSetByte sC4.request (sC4.msg_idx - 1) 0) ≤ sC4.msg_idx) ∧
    (((ssif_bmc_cb sC4 I2cEvent.writeReceived 0).1).slave_enabled = false ∧
     ((ssif_bmc_cb sC4 I2cEvent.writeReceived 0).1).request_available = true ∧
     ((ssif_bmc_cb sC4 I2cEvent.writeReceived 0).1).response = zeroMsg ∧
     ((ssif_bmc_cb sC4 I2cEvent.writeReceived 0).1).wake_count =
       sC4.wake_count + 1) :=
  ⟨⟨by decide, by decide, by decide⟩,
   C4_request_completion sC4 0 (by decide) (by decide) (by decide)⟩

/-- Claim C5 (amended): whenever response completion runs it zeroes the
response's length field, clears `response_in_progress`, clears
`num_bytes_processed` and `remain_data_len` and the 32-byte chunk buffer,
and broadcasts a wake — but it leaves `block_num` unchanged (the source's
`complete_response` never touches it). -/
theorem C5_complete_response_amended (s : SsifBmc) :
    (complete_response s).response.len = 0 ∧
    (complete_response s).response_in_progress = false ∧
    (complete_response s).num_bytes_processed = 0 ∧
    (complete_response s).remain_data_len = 0 ∧
    (complete_response s).response_buffer = List.replicate 32 0 ∧
    (complete_response s).wake_count = s.wake_count + 1 ∧
    (complete_response s).block_num = s.block_num := by
  simp [complete_response]

/-- Counterexample to claim C5 as stated: in state `sC5` a `ReadProcessed`
event triggers response completion (the in-progress flag falls), yet the
block number keeps the 0xFF sentinel instead of being cleared. -/
theorem C5_block_num_counterexample :
    ((ssif_bmc_cb sC5 I2cEvent.readProcessed 0).1).response_in_progress = false ∧
    ((ssif_bmc_cb sC5 I2cEvent.readProcessed 0).1).block_num ≠ 0 := by
  exact ⟨rfl, by decide⟩

/-- Claim C6: a non-blocking `sendResponse` while a response is in flight
fails with `-EAGAIN` and leaves the whole context unchanged. -/
theorem C6_send_busy_would_block (s : SsifBmc) (m : SsifMsg)
    (h : s.response_in_progress = true) :
    (send_ssif_bmc_response s m).1 = Except.error (-EAGAIN) ∧
    (send_ssif_bmc_response s m).2 = s := by
  simp [send_ssif_bmc_response, h]

/-- Witness for C6. -/
theorem C6_send_busy_would_block_witness :
    sC6.response_in_progress = true ∧
    ((send_ssif_bmc_response sC6 zeroMsg).1 = Except.error (-EAGAIN) ∧
     (send_ssif_bmc_response sC6 zeroMsg).2 = sC6) :=
  ⟨rfl, C6_send_busy_would_block sC6 zeroMsg rfl⟩

/-- Claim C7: a successful `receiveRequest` copies the pending request out
and clears `request_available`, so an immediately following non-blocking
`receiveRequest` fails with `-EAGAIN`; and it keeps failing after any byte
event that does not complete assembly of a new request. -/
theorem C7_single_slot_mailbox (s : SsifBmc) (h : s.request_available = true) :
    (receive_ssif_bmc_request s).1 = Except.ok s.request ∧
    ((receive_ssif_bmc_request s).2).request_available = false ∧
    (receive_ssif_bmc_request ((receive_ssif_bmc_request s).2)).1 =
      Except.error (-EAGAIN) ∧
    (∀ (t : SsifBmc) (e : I2cEvent) (v : Nat), t.request_available = false →
      completes_request t e v = false →
      ((ssif_bmc_cb t e v).1).request_available = false ∧
      (receive_ssif_bmc_request (ssif_bmc_cb t e v).1).1 =
        Except.error (-EAGAIN)) := by
  refine ⟨by simp [receive_ssif_bmc_request, h], by simp [receive_ssif_bmc_request, h],
    by simp [receive_ssif_bmc_request, h], ?_⟩
  intro t e v ht hc
  have hp := cb_preserves_request_available t e v hc
  rw [ht] at hp
  exact ⟨hp, by simp [receive_ssif_bmc_request, hp]⟩

/-- Witness for C7 at the concrete state `sC7`. -/
theorem C7_single_slot_mailbox_witness :
    sC7.request_available = true ∧
    ((receive_ssif_bmc_request sC7).1 = Except.ok sC7.request ∧
     ((receive_ssif_bmc_request sC7).2).request_available = false ∧
     (receive_ssif_bmc_request ((receive_ssif_bmc_request sC7).2)).1 =
       Except.error (-EAGAIN) ∧
     (∀ (t : SsifBmc) (e : I2cEvent) (v : Nat), t.request_available = false →
       completes_request t e v = false →
       ((ssif_bmc_cb t e v).1).request_available = false ∧
       (receive_ssif_bmc_request (ssif_bmc_cb t e v).1).1 =
         Except.error (-EAGAIN))) :=
  ⟨rfl, C7_single_slot_mailbox sC7 rfl⟩

/-- Claim C8: with no multi-part response active, the byte supplied on a
`ReadRequested` event is 1 when the pending response's length field is 0,
and the length field itself otherwise. -/
theorem C8_zero_length_workaround (s : SsifBmc) (v : Nat)
    (h : s.is_multi_part = false) :
    (ssif_bmc_cb s I2cEvent.readRequested v).2 =
      if s.response.len = 0 then 1 else s.response.len := by
  simp [ssif_bmc_cb, event_request_read, h, msgByte]

/-- Witness for C8: the freshly probed context holds an all-zero response,
so the supplied byte is 1. -/
theorem C8_zero_length_workaround_witness :
    initState.is_multi_part = false ∧
    (ssif_bmc_cb initState I2cEvent.readRequested 0).2 =
      (if initState.response.len = 0 then 1 else initState.response.len) :=
  ⟨rfl, C8_zero_length_workaround initState 0 rfl⟩

/-- Claim C9: for a `WriteReceived` event past the SMBus command byte, the
byte is stored into the request at offset `msg_idx - 1` only when the
cursor is within the 255-byte message struct; a byte whose cursor sits at
or beyond the struct boundary is silently dropped with no state change. -/
theorem C9_request_write_bounds (s : SsifBmc) (v : Nat) (h : 1 ≤ s.msg_idx) :
    (SSIF_MSG_SIZE ≤ s.msg_idx → (ssif_bmc_cb s I2cEvent.writeReceived v).1 = s) ∧
    (s.msg_idx < SSIF_MSG_SIZE →
      ((ssif_bmc_cb s I2cEvent.writeReceived v).1).request =
        msgSetByte s.request (s.msg_idx - 1) v ∧
      s.msg_idx - 1 < SSIF_MSG_SIZE) := by
  have h0 : ¬ s.msg_idx = 0 := by omega
  constructor
  · intro hge
    simp [ssif_bmc_cb, h0, hge]
  · intro hlt
    have hge : ¬ SSIF_MSG_SIZE ≤ s.msg_idx := Nat.not_le.mpr hlt
    refine ⟨?_, by omega⟩
    by_cases hc : ssif_msg_len (msgSetByte s.request (s.msg_idx - 1) v) ≤ s.msg_idx
    · simp [ssif_bmc_cb, h0, hge, hc, handle_request]
    · simp [ssif_bmc_cb, h0, hge, hc]

/-- Witness for C9 at the out-of-bounds state `sC9` (cursor 300) and the
in-bounds state `sC4` (cursor 4). -/
theorem C9_request_write_bounds_witness :
    (1 ≤ sC9.msg_idx ∧
      (SSIF_MSG_SIZE ≤ sC9.msg_idx →
        (ssif_bmc_cb sC9 I2cEvent.writeReceived 7).1 = sC9) ∧
      (sC9.msg_idx < SSIF_MSG_SIZE →
        ((ssif_bmc_cb sC9 I2cEvent.writeReceived 7).1).request =
          msgSetByte sC9.request (sC9.msg_idx - 1) 7 ∧
        sC9.msg_idx - 1 < SSIF_MSG_SIZE)) ∧
    (1 ≤ sC4.msg_idx ∧
      (SSIF_MSG_SIZE ≤ sC4.msg_idx →
        (ssif_bmc_cb sC4 I2cEvent.writeReceived 7).1 = sC4) ∧
      (sC4.msg_idx < SSIF_MSG_SIZE →
        ((ssif_bmc_cb sC4 I2cEvent.writeReceived 7).1).request =
          msgSetByte sC4.request (sC4.msg_idx - 1) 7 ∧
        sC4.msg_idx - 1 < SSIF_MSG_SIZE)) :=
  ⟨⟨by decide,
    (C9_request_write_bounds sC9 7 (by decide)).1,
    (C9_request_write_bounds sC9 7 (by decide)).2⟩,
   ⟨by decide,
    (C9_request_write_bounds sC4 7 (by decide)).1,
    (C9_request_write_bounds sC4 7 (by decide)).2⟩⟩

/-- Claim C10: a `ReadProcessed` event while no response is held (response
length 0, no multi-part active) supplies the byte 0, leaves the cursor
unchanged, and still runs response completion: `response_in_progress` is
cleared and a wake is broadcast on every such event. -/
theorem C10_read_processed_no_response (s : SsifBmc) (v : Nat)
    (h1 : s.response.len = 0) (h2 : s.is_multi_part = false) :
    (ssif_bmc_cb s I2cEvent.readProcessed v).2 = 0 ∧
    ((ssif_bmc_cb s I2cEvent.readProcessed v).1).msg_idx = s.msg_idx ∧
    ((ssif_bmc_cb s I2cEvent.readProcessed v).1).response_in_progress = false ∧
    ((ssif_bmc_cb s I2cEvent.readProcessed v).1).wake_count = s.wake_count + 1 := by
  simp [ssif_bmc_cb, event_process_read, complete_response, ssif_msg_len, h1, h2]

/-- Witness for C10 at the freshly probed context. -/
theorem C10_read_processed_no_response_witness :
    (initState.response.len = 0 ∧ initState.is_multi_part = false) ∧
    ((ssif_bmc_cb initState I2cEvent.readProcessed 5).2 = 0 ∧
     ((ssif_bmc_cb initState I2cEvent.readProcessed 5).1).msg_idx =
       initState.msg_idx ∧
     ((ssif_bmc_cb initState I2cEvent.readProcessed 5).1).response_in_progress =
       false ∧
     ((ssif_bmc_cb initState I2cEvent.readProcessed 5).1).wake_count =
       initState.wake_count + 1) :=
  ⟨⟨rfl, rfl⟩, C10_read_processed_no_response initState 5 rfl rfl⟩

end SsifBmcSpec
